import Mathlib

/-!
Verification of the entry-point resolver (`src/lib/ng-package/entry-point/entry-point.ts`).

The resolver is embedded shallowly: JavaScript runtime values are modelled by the
inductive `JsValue`, a thrown `TypeError` is modelled by the `Except Unit` error
constructor, and Node's `path` module is modelled by executable functions
parametrized over the host platform (POSIX or Windows separators; drive letters
and case-insensitive drive comparison are not modelled, and `resolve` is modelled
for an absolute base path, which the construction contract of `NgEntryPoint`
guarantees for `basePath`).
-/

namespace NgPackagr

/-- A JavaScript runtime value, as produced by parsing JSON-style configuration
(`package.json` values and `ng-package.json` values), plus `undefined`. -/
inductive JsValue : Type where
  | undefined : JsValue
  | null : JsValue
  | boolean : Bool → JsValue
  | num : Int → JsValue
  | str : String → JsValue
  | arr : List JsValue → JsValue
  | obj : List (String × JsValue) → JsValue

/-- JavaScript truthiness: `undefined`, `null`, `false`, `0` and `""` are falsy;
every object — including the empty array — is truthy. -/
def jsTruthy : JsValue → Bool
  | .undefined => false
  | .null => false
  | .boolean b => b
  | .num n => decide (n ≠ 0)
  | .str s => decide (s ≠ "")
  | .arr _ => true
  | .obj _ => true

/-- Whether `typeof value === 'object'` holds. In JavaScript `typeof null`
is `'object'` as well — `null` passes this test. -/
def typeofIsObject : JsValue → Bool
  | .null => true
  | .arr _ => true
  | .obj _ => true
  | _ => false

/-- First binding of a key in an object's field list, `undefined` when absent
(JavaScript property read on a data object). -/
def jsFieldLookup : List (String × JsValue) → String → JsValue
  | [], _ => .undefined
  | (k', v) :: fs, k => if k' = k then v else jsFieldLookup fs k

/-- Whether an object's field list has a binding for a key. -/
def jsFieldHas : List (String × JsValue) → String → Bool
  | [], _ => false
  | (k', _) :: fs, k => decide (k' = k) || jsFieldHas fs k

/-- Element of a list at an index, `undefined` out of range. -/
def jsListGetD : List JsValue → Nat → JsValue
  | [], _ => .undefined
  | x :: _, 0 => x
  | _ :: xs, n + 1 => jsListGetD xs n

/-- `value.hasOwnProperty(key)` for a non-null value: objects own their listed
fields; arrays own their numeric indices (canonically written) and `length`;
primitives own nothing of relevance here. -/
def jsHasOwn : JsValue → String → Bool
  | .obj fs, k => jsFieldHas fs k
  | .arr xs, k =>
      decide (k = "length") ||
        (match k.toNat? with
          | some i => decide (Nat.repr i = k) && decide (i < xs.length)
          | none => false)
  | _, _ => false

/-- `value[key]` for a value whose `hasOwnProperty(key)` was consulted:
objects yield the bound field, arrays yield `length` or the indexed element,
everything else yields `undefined`. -/
def jsOwnGet : JsValue → String → JsValue
  | .obj fs, k => jsFieldLookup fs k
  | .arr xs, k =>
      if k = "length" then .num (Int.ofNat xs.length)
      else
        match k.toNat? with
        | some i => if Nat.repr i = k then jsListGetD xs i else .undefined
        | none => .undefined
  | _, _ => .undefined

/-- Property read `value[key]` as an effectful operation: reading a property of
`null` or `undefined` throws a `TypeError`; every other value yields its own
property or `undefined`. -/
def jsIndex : JsValue → String → Except Unit JsValue
  | .null, _ => .error ()
  | .undefined, _ => .error ()
  | v, k => .ok (jsOwnGet v k)

mutual

/-- Template-literal stringification `String(value)` of a JavaScript value. -/
def jsToString : JsValue → String
  | .undefined => "undefined"
  | .null => "null"
  | .boolean true => "true"
  | .boolean false => "false"
  | .num n => toString n
  | .str s => s
  | .arr xs => jsArrayToString xs
  | .obj _ => "[object Object]"

/-- Stringification of one array element inside a join: `null` and `undefined`
become the empty string, everything else stringifies as usual. -/
def jsElementToString : JsValue → String
  | .undefined => ""
  | .null => ""
  | .boolean true => "true"
  | .boolean false => "false"
  | .num n => toString n
  | .str s => s
  | .arr xs => jsArrayToString xs
  | .obj _ => "[object Object]"

/-- `Array.prototype.join(',')`, as used by array stringification. -/
def jsArrayToString : List JsValue → String
  | [] => ""
  | [x] => jsElementToString x
  | x :: xs => jsElementToString x ++ "," ++ jsArrayToString xs

end

mutual

/-- Whether a value contains no `null` anywhere inside it. -/
def jsNoNull : JsValue → Bool
  | .null => false
  | .arr xs => jsListNoNull xs
  | .obj fs => jsFieldsNoNull fs
  | _ => true

/-- `jsNoNull` over an array's elements. -/
def jsListNoNull : List JsValue → Bool
  | [] => true
  | x :: xs => jsNoNull x && jsListNoNull xs

/-- `jsNoNull` over an object's fields. -/
def jsFieldsNoNull : List (String × JsValue) → Bool
  | [] => true
  | (_, v) :: fs => jsNoNull v && jsFieldsNoNull fs

end

/-- Split a character list at every character satisfying `p`, keeping empty
groups, as JavaScript `String.prototype.split` does with a one-character
separator: the empty string yields one empty group. -/
def splitChars (p : Char → Bool) : List Char → List (List Char)
  | [] => [[]]
  | c :: cs =>
    if p c then [] :: splitChars p cs
    else
      match splitChars p cs with
      | [] => [[c]]
      | g :: gs => (c :: g) :: gs

/-- Join character-list groups with a separator, as `Array.prototype.join`. -/
def joinChars (sep : List Char) : List (List Char) → List Char
  | [] => []
  | [g] => g
  | g :: gs => g ++ sep ++ joinChars sep gs

/-- JavaScript `s.split(sep)` for a one-character separator. -/
def jsSplitOn (sep : Char) (s : String) : List String :=
  (splitChars (fun c => c = sep) s.data).map String.mk

/-- Join strings with a separator string. -/
def joinStr (sep : String) : List String → String
  | [] => ""
  | [s] => s
  | s :: rest => s ++ sep ++ joinStr sep rest

/-- The host platform, which fixes the path-separator convention of the
`path` module. -/
inductive Platform : Type where
  | posix : Platform
  | win32 : Platform

/-- Whether a character is a path separator on the platform: Windows accepts
both the backslash and the forward slash. -/
def isSep : Platform → Char → Bool
  | .posix, c => decide (c = '/')
  | .win32, c => decide (c = '/') || decide (c = '\\')

/-- The canonical separator the platform writes into produced paths. -/
def sepStr : Platform → String
  | .posix => "/"
  | .win32 => "\\"

/-- The non-empty separator-free segments of a path string. -/
def splitSegs (pl : Platform) (p : String) : List String :=
  ((splitChars (isSep pl) p.data).filter (fun g => g ≠ [])).map String.mk

/-- One step of path normalization: drop a `.` segment, let a `..` segment
cancel the previous real segment (`allowUp` keeps `..` segments that would
climb above the start, as relative-path normalization does; absolute-path
normalization discards them at the root). -/
def normStep (allowUp : Bool) (acc : List String) (s : String) : List String :=
  if s = "." then acc
  else if s = ".." then
    match acc.getLast? with
    | some l => if l = ".." then (if allowUp then acc ++ [".."] else acc) else acc.dropLast
    | none => if allowUp then [".."] else []
  else acc ++ [s]

/-- Normalize a segment list, resolving `.` and `..` segments. -/
def normSegs (allowUp : Bool) (segs : List String) : List String :=
  segs.foldl (normStep allowUp) []

/-- Print a segment list as an absolute path of the platform. -/
def segsToAbs (pl : Platform) (segs : List String) : String :=
  sepStr pl ++ joinStr (sepStr pl) segs

namespace Path

/-- `path.isAbsolute`: the string starts with a separator (Windows drive
letters are outside the modelled fragment). -/
def isAbsolute (pl : Platform) (p : String) : Bool :=
  match p.data with
  | [] => false
  | c :: _ => isSep pl c

/-- `path.resolve(base, rel)` for an absolute `base` (the resolver only ever
passes a `basePath`, which the construction contract requires to be absolute;
Node would consult the working directory otherwise): an absolute `rel` wins,
else `rel` is appended to `base`, and the result is normalized. -/
def resolve (pl : Platform) (base rel : String) : String :=
  let segs := if isAbsolute pl rel then splitSegs pl rel else splitSegs pl base ++ splitSegs pl rel
  segsToAbs pl (normSegs false segs)

/-- `path.join(parts)`: non-empty parts are joined with the platform separator
and the result is normalized, staying relative when the first part was. -/
def join (pl : Platform) (parts : List String) : String :=
  let kept := parts.filter (fun s => s ≠ "")
  match kept with
  | [] => "."
  | _ =>
    let joined := joinStr (sepStr pl) kept
    let abs := isAbsolute pl joined
    let segs := normSegs (!abs) (splitSegs pl joined)
    if abs then segsToAbs pl segs
    else if segs = [] then "." else joinStr (sepStr pl) segs

/-- Segment lists after discarding the longest shared leading run. -/
def dropShared : List String → List String → List String × List String
  | a :: as, b :: bs => if a = b then dropShared as bs else (a :: as, b :: bs)
  | as, bs => (as, bs)

/-- `path.relative(src, dst)` for absolute `src` and `dst`: both are
normalized, the shared leading segments are dropped, and the answer climbs
out of what is left of `src` before descending into what is left of `dst`. -/
def relative (pl : Platform) (src dst : String) : String :=
  let ss := normSegs false (splitSegs pl src)
  let ds := normSegs false (splitSegs pl dst)
  let rest := dropShared ss ds
  joinStr (sepStr pl) (List.replicate rest.1.length ".." ++ rest.2)

end Path

/-- Modelled from the spec: `ensureUnixPath` from `src/lib/utils/path`, which
is not under `src/`; per the spec every path separator is normalized to a
forward slash, so each backslash becomes a slash. -/
def ensureUnixPath (s : String) : String :=
  String.mk (s.data.map fun c => if c = '\\' then '/' else c)

/-- The absolute output paths of one entry point, mirroring the
`DestinationFiles` interface. -/
structure DestinationFiles : Type where
  declarations : String
  metadata : String
  fesm2015 : String
  esm2015 : String
  umd : String
  umdMinified : String

/-- An entry point: `package.json` values, `ngPackage`/`ng-package.json`
values, the absolute base directory, and the optional parent entry point
(the two constructors are the two shapes of the optional constructor
argument). -/
inductive NgEntryPoint : Type where
  | primary (packageJson : JsValue) (ngPackageJson : JsValue) (basePath : String)
  | secondary (packageJson : JsValue) (ngPackageJson : JsValue) (basePath : String)
      (parent : NgEntryPoint)

namespace NgEntryPoint

/-- The `packageJson` constructor field. -/
def packageJson : NgEntryPoint → JsValue
  | .primary pj _ _ => pj
  | .secondary pj _ _ _ => pj

/-- The `ngPackageJson` constructor field. -/
def ngPackageJson : NgEntryPoint → JsValue
  | .primary _ npj _ => npj
  | .secondary _ npj _ _ => npj

/-- The `basePath` constructor field. -/
def basePath : NgEntryPoint → String
  | .primary _ _ bp => bp
  | .secondary _ _ bp _ => bp

/-- The optional `parent` constructor field. -/
def parent : NgEntryPoint → Option NgEntryPoint
  | .primary _ _ _ => none
  | .secondary _ _ _ par => some par

/-- The loop body of `$get`: walk the configuration value one key segment at
a time; a value that is not a JavaScript object (per `typeof`), or an object
that lacks the segment as an own property, ends the walk with `undefined` —
but on `null` the `typeof` test still claims an object and the
`hasOwnProperty` call throws a `TypeError`. -/
def dollarGetLoop : JsValue → List String → Except Unit JsValue
  | value, [] => .ok value
  | .null, _ :: _ => .error ()
  | value, k :: ks =>
    if typeofIsObject value && jsHasOwn value k then dollarGetLoop (jsOwnGet value k) ks
    else .ok .undefined

/-- `$get(key)`: split the dotted key and walk `ngPackageJson`. -/
def dollarGet (ep : NgEntryPoint) (key : String) : Except Unit JsValue :=
  dollarGetLoop (ngPackageJson ep) (jsSplitOn '.' key)

/-- The `entryFile` getter: `$get('lib.entryFile')`. -/
def entryFile (ep : NgEntryPoint) : Except Unit JsValue :=
  dollarGet ep "lib.entryFile"

/-- The `cssUrl` getter: `$get('lib.cssUrl')`. -/
def cssUrl (ep : NgEntryPoint) : Except Unit JsValue :=
  dollarGet ep "lib.cssUrl"

/-- The `umdModuleIds` getter: `$get('lib.umdModuleIds')`. -/
def umdModuleIds (ep : NgEntryPoint) : Except Unit JsValue :=
  dollarGet ep "lib.umdModuleIds"

/-- The `entryFilePath` getter: `path.resolve(basePath, entryFile)`;
`path.resolve` throws a `TypeError` when `entryFile` is not a string
(in particular when the `lib.entryFile` option is absent). -/
def entryFilePath (pl : Platform) (ep : NgEntryPoint) : Except Unit String := do
  let e ← entryFile ep
  match e with
  | .str s => .ok (Path.resolve pl (basePath ep) s)
  | _ => .error ()

/-- The `isSecondaryEntryPoint` getter: whether a parent is present. -/
def isSecondaryEntryPoint (ep : NgEntryPoint) : Bool :=
  (parent ep).isSome

/-- The `libraryDestinationPath` getter: a secondary entry point defers to its
parent; the primary entry point resolves its `dest` option against its own
`basePath` (`path.resolve` throws when `dest` is not a string). -/
def libraryDestinationPath (pl : Platform) : NgEntryPoint → Except Unit String
  | .secondary _ _ _ par => libraryDestinationPath pl par
  | .primary pj npj bp => do
    let d ← dollarGet (.primary pj npj bp) "dest"
    match d with
    | .str s => .ok (Path.resolve pl bp s)
    | _ => .error ()

/-- The `sourceRelativePath` getter: empty without a parent, else
`path.relative(parent.basePath, basePath)`. -/
def sourceRelativePath (pl : Platform) : NgEntryPoint → String
  | .primary _ _ _ => ""
  | .secondary _ _ bp par => Path.relative pl (basePath par) bp

/-- The `destinationPath` getter: the library destination itself for the
primary entry point, else the library destination joined with the
source-relative path. -/
def destinationPath (pl : Platform) (ep : NgEntryPoint) : Except Unit String :=
  match parent ep with
  | some _ => do
    let l ← libraryDestinationPath pl ep
    .ok (Path.join pl [l, sourceRelativePath pl ep])
  | none => libraryDestinationPath pl ep

/-- The `moduleId` getter: the primary entry point reads
`packageJson['name']` (any value, `undefined` when absent); a secondary entry
point builds the template string from the parent's module id and the
source-relative path and normalizes the separators with `ensureUnixPath`. -/
def moduleId (pl : Platform) : NgEntryPoint → Except Unit JsValue
  | .primary pj _ _ => jsIndex pj "name"
  | .secondary _ _ bp par => do
    let pm ← moduleId pl par
    .ok (.str (ensureUnixPath (jsToString pm ++ "/" ++ Path.relative pl (basePath par) bp)))

/-- The `flattenModuleId(separator)` method (source default separator `'.'`):
`moduleId.startsWith('@')` throws a `TypeError` unless `moduleId` is a string;
a leading `@` is stripped, then the `/`-separated segments are joined with the
separator. -/
def flattenModuleId (pl : Platform) (separator : String) (ep : NgEntryPoint) :
    Except Unit String := do
  let m ← moduleId pl ep
  match m with
  | .str s =>
    match s.data with
    | '@' :: rest =>
      .ok (String.mk (joinChars separator.data (splitChars (fun c => decide (c = '/')) rest)))
    | l => .ok (String.mk (joinChars separator.data (splitChars (fun c => decide (c = '/')) l)))
  | _ => .error ()

/-- The `flatModuleFile` getter: the truthy configured `lib.flatModuleFile`
value, else `flattenModuleId('-')`. -/
def flatModuleFile (pl : Platform) (ep : NgEntryPoint) : Except Unit JsValue := do
  let v ← dollarGet ep "lib.flatModuleFile"
  if jsTruthy v then .ok v
  else do
    let s ← flattenModuleId pl "-" ep
    .ok (.str s)

/-- The `umdId` getter: the truthy configured `lib.umdId` value, else
`flattenModuleId()` with the default `'.'` separator. -/
def umdId (pl : Platform) (ep : NgEntryPoint) : Except Unit JsValue := do
  let v ← dollarGet ep "lib.umdId"
  if jsTruthy v then .ok v
  else do
    let s ← flattenModuleId pl "." ep
    .ok (.str s)

/-- The `amdId` getter: the truthy configured `lib.amdId` value, else the
`moduleId` unchanged. -/
def amdId (pl : Platform) (ep : NgEntryPoint) : Except Unit JsValue := do
  let v ← dollarGet ep "lib.amdId"
  if jsTruthy v then .ok v else moduleId pl ep

/-- The `sideEffects` getter: `packageJson['sideEffects'] || false` — the
manifest value when truthy (an empty array is truthy), else `false`. -/
def sideEffects (ep : NgEntryPoint) : Except Unit JsValue := do
  let v ← jsIndex (packageJson ep) "sideEffects"
  .ok (if jsTruthy v then v else .boolean false)

/-- The `styleIncludePaths` getter: the configured list (or `[]` when falsy),
each entry kept when absolute and resolved against `basePath` otherwise;
a truthy non-array value has no `map` method and a non-string entry makes
`path.isAbsolute` throw. -/
def styleIncludePaths (pl : Platform) (ep : NgEntryPoint) : Except Unit (List String) := do
  let v ← dollarGet ep "lib.styleIncludePaths"
  let includePaths := if jsTruthy v then v else .arr []
  match includePaths with
  | .arr xs =>
    xs.mapM fun p =>
      match p with
      | .str s => .ok (if Path.isAbsolute pl s then s else Path.resolve pl (basePath ep) s)
      | _ => .error ()
  | _ => .error ()

/-- The `destinationFiles` getter: metadata and declarations under
`destinationPath` with the `flatModuleFile` stem; `esm2015` under
`esm2015/<sourceRelativePath>`; `fesm2015` and the two UMD bundles flat under
`fesm2015` and `bundles`. -/
def destinationFiles (pl : Platform) (ep : NgEntryPoint) : Except Unit DestinationFiles := do
  let libDest ← libraryDestinationPath pl ep
  let entryPointDest ← destinationPath pl ep
  let mfv ← flatModuleFile pl ep
  let moduleFileName := jsToString mfv
  .ok
    { metadata := Path.join pl [entryPointDest, moduleFileName ++ ".metadata.json"]
      declarations := Path.join pl [entryPointDest, moduleFileName ++ ".d.ts"]
      esm2015 :=
        Path.join pl [libDest, "esm2015", sourceRelativePath pl ep, moduleFileName ++ ".js"]
      fesm2015 := Path.join pl [libDest, "fesm2015", moduleFileName ++ ".js"]
      umd := Path.join pl [libDest, "bundles", moduleFileName ++ ".umd.js"]
      umdMinified := Path.join pl [libDest, "bundles", moduleFileName ++ ".umd.min.js"] }

end NgEntryPoint

/-- The parentless ancestor of an entry point, reached by walking the parent
references upward. -/
def rootOf : NgEntryPoint → NgEntryPoint
  | .primary pj npj bp => .primary pj npj bp
  | .secondary _ _ _ par => rootOf par

/-- The primary entry point of the spec's worked scenario: `basePath=/lib`,
`dest="dist"`, manifest name `@acme/widgets`, `lib.entryFile="index.ts"`. -/
def acmePrimary : NgEntryPoint :=
  .primary (.obj [("name", .str "@acme/widgets")])
    (.obj [("dest", .str "dist"), ("lib", .obj [("entryFile", .str "index.ts")])]) "/lib"

/-- The secondary entry point of the spec's worked scenario:
`basePath=/lib/testing` under `acmePrimary`. -/
def acmeTesting : NgEntryPoint :=
  .secondary (.obj []) (.obj []) "/lib/testing" acmePrimary

/-- The same scenario written with the path-separator convention of the given
platform, to compare module ids across hosts. -/
def acmeTestingOn : Platform → NgEntryPoint
  | .posix => acmeTesting
  | .win32 =>
    .secondary (.obj []) (.obj []) "\\lib\\testing"
      (.primary (.obj [("name", .str "@acme/widgets")]) (.obj []) "\\lib")

/-- A primary entry point with an entirely empty library configuration. -/
def emptyConfigEp : NgEntryPoint :=
  .primary (.obj []) (.obj []) "/lib"

/-- A primary entry point whose `lib.flatModuleFile` option is set to the
empty string, with manifest name `pkg`. -/
def emptyFlatFileEp : NgEntryPoint :=
  .primary (.obj [("name", .str "pkg")])
    (.obj [("lib", .obj [("flatModuleFile", .str "")])]) "/lib"

/-- A primary entry point setting `lib.flatModuleFile`, `lib.umdId` and
`lib.amdId` all to the non-empty string `xy`. -/
def overridesEp : NgEntryPoint :=
  .primary (.obj [("name", .str "pkg")])
    (.obj [("lib", .obj [("flatModuleFile", .str "xy"), ("umdId", .str "xy"),
      ("amdId", .str "xy")])]) "/lib"

/-- A primary entry point setting `lib.flatModuleFile`, `lib.umdId` and
`lib.amdId` all to the empty string, with manifest name `@scope/pkg`. -/
def emptyOverridesEp : NgEntryPoint :=
  .primary (.obj [("name", .str "@scope/pkg")])
    (.obj [("lib", .obj [("flatModuleFile", .str ""), ("umdId", .str ""),
      ("amdId", .str "")])]) "/lib"

/-- A primary entry point with manifest name `@scope/pkg/sub`. -/
def scopedNameEp : NgEntryPoint :=
  .primary (.obj [("name", .str "@scope/pkg/sub")]) (.obj []) "/lib"

/-- A primary entry point with manifest name `pkg/sub` (no scope). -/
def plainNameEp : NgEntryPoint :=
  .primary (.obj [("name", .str "pkg/sub")]) (.obj []) "/lib"

/-! ## Helper lemmas -/

open NgEntryPoint

/-- A key absent from a field list reads as `undefined`. -/
theorem jsFieldLookup_of_not_has (fs : List (String × JsValue)) (k : String)
    (h : jsFieldHas fs k = false) : jsFieldLookup fs k = .undefined := by
  induction fs with
  | nil => rfl
  | cons f fs ih =>
    obtain ⟨k', v⟩ := f
    simp only [jsFieldHas, Bool.or_eq_false_iff, decide_eq_false_iff_not] at h
    simp only [jsFieldLookup, if_neg h.1]
    exact ih h.2

/-- Binding a successful `Except` computation applies the continuation. -/
theorem exBind_ok {e a b : Type} (x : a) (f : a → Except e b) :
    (Except.ok x >>= f) = f x := rfl

/-- Binding a failed `Except` computation propagates the error. -/
theorem exBind_err {e a b : Type} (err : e) (f : a → Except e b) :
    (Except.error err >>= f : Except e b) = Except.error err := rfl

/-- `ensureUnixPath` leaves no backslash in its output. -/
theorem ensureUnixPath_no_backslash (s : String) :
    ∀ c ∈ (ensureUnixPath s).data, c ≠ '\\' := by
  intro c hc
  simp only [ensureUnixPath] at hc
  rcases List.mem_map.mp hc with ⟨c', _, rfl⟩
  by_cases h : c' = '\\' <;> simp [h]

/-! ## Claim theorems -/

/-- Claim C4: for the primary entry point with `basePath=/lib`,
`dest="dist"`, `lib.entryFile="index.ts"` and manifest name `@acme/widgets`,
the resolver yields `entryFilePath=/lib/index.ts`,
`libraryDestinationPath=/lib/dist`, `moduleId=@acme/widgets`,
`flatModuleFile=acme-widgets` and `umdId=acme.widgets`. -/
theorem claim4_main :
    entryFilePath Platform.posix acmePrimary = .ok "/lib/index.ts"
    ∧ libraryDestinationPath Platform.posix acmePrimary = .ok "/lib/dist"
    ∧ moduleId Platform.posix acmePrimary = .ok (.str "@acme/widgets")
    ∧ flatModuleFile Platform.posix acmePrimary = .ok (.str "acme-widgets")
    ∧ umdId Platform.posix acmePrimary = .ok (.str "acme.widgets") :=
  ⟨rfl, rfl, rfl, rfl, rfl⟩

/-- Claim C5: `destinationFiles` places `metadata` and `declarations` under
`destinationPath` with the `flatModuleFile` stem, `esm2015` under
`libraryDestinationPath/esm2015/<sourceRelativePath>`, and `fesm2015` and
both UMD bundles flat under `fesm2015` and `bundles` with only the stem;
for the secondary scenario under `/lib`, `esm2015` is
`/lib/dist/esm2015/testing/acme-widgets-testing.js`. -/
theorem claim5_main (pl : Platform) (ep : NgEntryPoint) (l d : String) (mfv : JsValue)
    (hl : libraryDestinationPath pl ep = .ok l)
    (hd : destinationPath pl ep = .ok d)
    (hf : flatModuleFile pl ep = .ok mfv) :
    destinationFiles pl ep = .ok
      { declarations := Path.join pl [d, jsToString mfv ++ ".d.ts"]
        metadata := Path.join pl [d, jsToString mfv ++ ".metadata.json"]
        fesm2015 := Path.join pl [l, "fesm2015", jsToString mfv ++ ".js"]
        esm2015 := Path.join pl [l, "esm2015", sourceRelativePath pl ep, jsToString mfv ++ ".js"]
        umd := Path.join pl [l, "bundles", jsToString mfv ++ ".umd.js"]
        umdMinified := Path.join pl [l, "bundles", jsToString mfv ++ ".umd.min.js"] }
    ∧ destinationFiles Platform.posix acmeTesting = .ok
      { declarations := "/lib/dist/testing/acme-widgets-testing.d.ts"
        metadata := "/lib/dist/testing/acme-widgets-testing.metadata.json"
        fesm2015 := "/lib/dist/fesm2015/acme-widgets-testing.js"
        esm2015 := "/lib/dist/esm2015/testing/acme-widgets-testing.js"
        umd := "/lib/dist/bundles/acme-widgets-testing.umd.js"
        umdMinified := "/lib/dist/bundles/acme-widgets-testing.umd.min.js" } := by
  constructor
  · simp only [destinationFiles, hl, hd, hf]
    rfl
  · rfl

/-- Claim C5, witness. -/
theorem claim5_witness :
    destinationFiles Platform.posix acmeTesting = .ok
      { declarations := "/lib/dist/testing/acme-widgets-testing.d.ts"
        metadata := "/lib/dist/testing/acme-widgets-testing.metadata.json"
        fesm2015 := "/lib/dist/fesm2015/acme-widgets-testing.js"
        esm2015 := "/lib/dist/esm2015/testing/acme-widgets-testing.js"
        umd := "/lib/dist/bundles/acme-widgets-testing.umd.js"
        umdMinified := "/lib/dist/bundles/acme-widgets-testing.umd.min.js" } :=
  (claim5_main Platform.posix acmeTesting "/lib/dist" "/lib/dist/testing"
    (.str "acme-widgets-testing") rfl rfl rfl).2

/-- Claim C3: a secondary entry point's `moduleId` is the parent's module id
concatenated with `/` and the source-relative path, every separator in the
result normalized to a forward slash; the normalized form is identical under
the POSIX and the Windows separator conventions for the worked scenario; a
parentless entry point's `moduleId` is the manifest `name` field. -/
theorem claim3_main (pl : Platform) (pj npj : JsValue) (bp : String) (par : NgEntryPoint)
    (m : String) (hm : moduleId pl par = .ok (.str m)) :
    moduleId pl (.secondary pj npj bp par)
      = .ok (.str (ensureUnixPath (m ++ "/" ++ sourceRelativePath pl (.secondary pj npj bp par))))
    ∧ (∀ c ∈ (ensureUnixPath
          (m ++ "/" ++ sourceRelativePath pl (.secondary pj npj bp par))).data, c ≠ '\\')
    ∧ (∀ pl2, moduleId pl2 (acmeTestingOn pl2) = .ok (.str "@acme/widgets/testing"))
    ∧ (∀ pj2 npj2 bp2, moduleId pl (.primary pj2 npj2 bp2) = jsIndex pj2 "name") := by
  refine ⟨?_, ensureUnixPath_no_backslash _, ?_, fun _ _ _ => rfl⟩
  · simp only [moduleId, sourceRelativePath, hm]
    rfl
  · intro pl2
    cases pl2 <;> rfl

/-- Claim C3, witness. -/
theorem claim3_witness :
    moduleId Platform.posix acmeTesting
      = .ok (.str (ensureUnixPath
          ("@acme/widgets" ++ "/" ++ sourceRelativePath Platform.posix acmeTesting))) :=
  (claim3_main Platform.posix (.obj []) (.obj []) "/lib/testing" acmePrimary
    "@acme/widgets" rfl).1

/-- Claim C6: `libraryDestinationPath` is the parentless ancestor's, obtained
by resolving the ancestor's own `dest` option against the ancestor's own
`basePath`; a `dest` option on a secondary entry point's own configuration
never matters; `destinationPath` is the library destination itself for a
parentless entry point and the library destination joined with the
source-relative path otherwise. -/
theorem claim6_main (pl : Platform) (ep : NgEntryPoint) :
    libraryDestinationPath pl ep = libraryDestinationPath pl (rootOf ep)
    ∧ (∀ pj npj npj2 bp par,
        libraryDestinationPath pl (.secondary pj npj bp par)
          = libraryDestinationPath pl (.secondary pj npj2 bp par))
    ∧ (∀ pj npj bp,
        libraryDestinationPath pl (.primary pj npj bp)
          = (dollarGet (.primary pj npj bp) "dest").bind
              (fun d => match d with
                | .str s => .ok (Path.resolve pl bp s)
                | _ => .error ()))
    ∧ (∀ pj npj bp, destinationPath pl (.primary pj npj bp)
        = libraryDestinationPath pl (.primary pj npj bp))
    ∧ (∀ pj npj bp par l, libraryDestinationPath pl par = .ok l →
        destinationPath pl (.secondary pj npj bp par)
          = .ok (Path.join pl [l, sourceRelativePath pl (.secondary pj npj bp par)])) := by
  refine ⟨?_, fun _ _ _ _ _ => rfl, fun _ _ _ => rfl, fun _ _ _ => rfl, ?_⟩
  · induction ep with
    | primary pj npj bp => rfl
    | secondary pj npj bp par ih => exact ih
  · intro pj npj bp par l hl
    have e : libraryDestinationPath pl (.secondary pj npj bp par)
        = libraryDestinationPath pl par := rfl
    simp only [destinationPath, parent, e, hl]
    rfl

/-- Claim C6, witness. -/
theorem claim6_witness :
    libraryDestinationPath Platform.posix acmeTesting
      = libraryDestinationPath Platform.posix (rootOf acmeTesting)
    ∧ destinationPath Platform.posix acmeTesting
      = .ok (Path.join Platform.posix
          ["/lib/dist", sourceRelativePath Platform.posix acmeTesting]) := by
  obtain ⟨h1, _, _, _, h5⟩ := claim6_main Platform.posix acmeTesting
  exact ⟨h1, h5 (.obj []) (.obj []) "/lib/testing" acmePrimary "/lib/dist" rfl⟩

/-- Claim C7: `flattenModuleId` strips one leading `@` scope marker when
present, then joins the slash-delimited segments with the separator; the
module id `@scope/pkg/sub` flattens with `-` to `scope-pkg-sub` and the
unscoped `pkg/sub` to `pkg-sub`. -/
theorem claim7_main (pl : Platform) (ep : NgEntryPoint) (s separator : String)
    (hs : moduleId pl ep = .ok (.str s)) :
    (∀ rest : List Char, s.data = '@' :: rest →
      flattenModuleId pl separator ep
        = .ok (String.mk (joinChars separator.data
            (splitChars (fun c => decide (c = '/')) rest))))
    ∧ (s.data.head? ≠ some '@' →
      flattenModuleId pl separator ep
        = .ok (String.mk (joinChars separator.data
            (splitChars (fun c => decide (c = '/')) s.data))))
    ∧ flattenModuleId Platform.posix "-" scopedNameEp = .ok "scope-pkg-sub"
    ∧ flattenModuleId Platform.posix "-" plainNameEp = .ok "pkg-sub" := by
  refine ⟨?_, ?_, rfl, rfl⟩
  · intro rest hr
    simp only [flattenModuleId, hs, exBind_ok]
    rw [hr]
    rfl
  · intro hh
    simp only [flattenModuleId, hs, exBind_ok]
    show (match s.data with
      | '@' :: rest =>
        Except.ok (String.mk (joinChars separator.data
          (splitChars (fun c => decide (c = '/')) rest)))
      | l =>
        Except.ok (String.mk (joinChars separator.data
          (splitChars (fun c => decide (c = '/')) l)))) = _
    split
    · rename_i rest heq
      exact absurd (by rw [heq]; rfl) hh
    · rfl

/-- Claim C7, witness. -/
theorem claim7_witness :
    flattenModuleId Platform.posix "-" scopedNameEp
      = .ok (String.mk (joinChars "-".data
          (splitChars (fun c => decide (c = '/')) "scope/pkg/sub".data)))
    ∧ flattenModuleId Platform.posix "-" plainNameEp = .ok "pkg-sub" := by
  have h := claim7_main Platform.posix scopedNameEp "@scope/pkg/sub" "-" rfl
  have h2 := claim7_main Platform.posix plainNameEp "pkg/sub" "-" rfl
  exact ⟨h.1 "scope/pkg/sub".data rfl, h2.2.2.2⟩

/-- Claim C8, counterexample: `lib.flatModuleFile` set to the empty string —
a string value — is not returned by `flatModuleFile`; the accessor falls
back to the derived default `pkg`. -/
theorem claim8_counterexample :
    dollarGet emptyFlatFileEp "lib.flatModuleFile" = .ok (.str "")
    ∧ flatModuleFile Platform.posix emptyFlatFileEp = .ok (.str "pkg")
    ∧ JsValue.str "pkg" ≠ JsValue.str "" := by
  refine ⟨rfl, rfl, ?_⟩
  intro h
  injection h with h2
  exact absurd h2 (by decide)

/-- Claim C8, amended: for every non-empty string configured for
`lib.flatModuleFile`, `lib.umdId` or `lib.amdId`, the corresponding accessor
returns exactly that value; when the option is absent the accessor returns
the derived default (`flattenModuleId('-')`, `flattenModuleId('.')`, or
`moduleId` respectively). -/
theorem claim8_main (pl : Platform) (ep : NgEntryPoint) (s : String) (hs : s ≠ "") :
    (dollarGet ep "lib.flatModuleFile" = .ok (.str s) →
      flatModuleFile pl ep = .ok (.str s))
    ∧ (dollarGet ep "lib.umdId" = .ok (.str s) → umdId pl ep = .ok (.str s))
    ∧ (dollarGet ep "lib.amdId" = .ok (.str s) → amdId pl ep = .ok (.str s))
    ∧ (dollarGet ep "lib.flatModuleFile" = .ok .undefined →
        flatModuleFile pl ep = (flattenModuleId pl "-" ep).map JsValue.str)
    ∧ (dollarGet ep "lib.umdId" = .ok .undefined →
        umdId pl ep = (flattenModuleId pl "." ep).map JsValue.str)
    ∧ (dollarGet ep "lib.amdId" = .ok .undefined → amdId pl ep = moduleId pl ep) := by
  refine ⟨?_, ?_, ?_, ?_, ?_, ?_⟩ <;> intro h
  · simp [flatModuleFile, h, exBind_ok, jsTruthy, hs]
  · simp [umdId, h, exBind_ok, jsTruthy, hs]
  · simp [amdId, h, exBind_ok, jsTruthy, hs]
  · simp only [flatModuleFile, h, exBind_ok]
    cases hf : flattenModuleId pl "-" ep <;>
      simp [hf, exBind_ok, exBind_err, jsTruthy, Except.map]
  · simp only [umdId, h, exBind_ok]
    cases hf : flattenModuleId pl "." ep <;>
      simp [hf, exBind_ok, exBind_err, jsTruthy, Except.map]
  · simp [amdId, h, exBind_ok, jsTruthy]

/-- Claim C8, witness. -/
theorem claim8_witness :
    flatModuleFile Platform.posix overridesEp = .ok (.str "xy")
    ∧ umdId Platform.posix overridesEp = .ok (.str "xy")
    ∧ amdId Platform.posix overridesEp = .ok (.str "xy")
    ∧ flatModuleFile Platform.posix acmePrimary
      = (flattenModuleId Platform.posix "-" acmePrimary).map JsValue.str
    ∧ umdId Platform.posix acmePrimary
      = (flattenModuleId Platform.posix "." acmePrimary).map JsValue.str
    ∧ amdId Platform.posix acmePrimary = moduleId Platform.posix acmePrimary := by
  obtain ⟨h1, h2, h3, _, _, _⟩ := claim8_main Platform.posix overridesEp "xy" (by decide)
  obtain ⟨_, _, _, h4, h5, h6⟩ := claim8_main Platform.posix acmePrimary "x" (by decide)
  exact ⟨h1 rfl, h2 rfl, h3 rfl, h4 rfl, h5 rfl, h6 rfl⟩

/-- Claim C9: `sideEffects` is `false` when the manifest omits the field and
the manifest's literal value when the field holds a truthy value, an
explicit boolean, or a list — including the empty list, which is truthy in
JavaScript and therefore returned as the empty list, not collapsed to
`false`. -/
theorem claim9_main (ep : NgEntryPoint) (fields : List (String × JsValue))
    (hpj : packageJson ep = .obj fields) :
    (jsFieldHas fields "sideEffects" = false → sideEffects ep = .ok (.boolean false))
    ∧ (∀ v, jsFieldLookup fields "sideEffects" = v → jsTruthy v = true →
        sideEffects ep = .ok v)
    ∧ (jsFieldLookup fields "sideEffects" = .boolean false →
        sideEffects ep = .ok (.boolean false))
    ∧ (∀ xs, jsFieldLookup fields "sideEffects" = .arr xs →
        sideEffects ep = .ok (.arr xs)) := by
  refine ⟨?_, ?_, ?_, ?_⟩
  · intro habs
    have hu : jsFieldLookup fields "sideEffects" = .undefined :=
      jsFieldLookup_of_not_has _ _ habs
    simp only [sideEffects, hpj, jsIndex, jsOwnGet, hu]
    rfl
  · intro v hl hv
    simp only [sideEffects, hpj, jsIndex, jsOwnGet, exBind_ok, hl]
    simp [hv]
  · intro hl
    simp only [sideEffects, hpj, jsIndex, jsOwnGet, exBind_ok, hl]
    rfl
  · intro xs hl
    simp only [sideEffects, hpj, jsIndex, jsOwnGet, exBind_ok, hl]
    simp [jsTruthy]

/-- Claim C9, witness. -/
theorem claim9_witness :
    sideEffects emptyConfigEp = .ok (.boolean false)
    ∧ sideEffects (.primary (.obj [("name", .str "pkg"), ("sideEffects", .arr [])])
        (.obj []) "/lib") = .ok (.arr [])
    ∧ sideEffects (.primary (.obj [("name", .str "pkg"), ("sideEffects", .boolean true)])
        (.obj []) "/lib") = .ok (.boolean true)
    ∧ sideEffects (.primary (.obj [("name", .str "pkg"), ("sideEffects", .boolean false)])
        (.obj []) "/lib") = .ok (.boolean false) := by
  refine ⟨(claim9_main emptyConfigEp [] rfl).1 rfl, ?_, ?_, ?_⟩
  · exact (claim9_main
      (.primary (.obj [("name", .str "pkg"), ("sideEffects", .arr [])]) (.obj []) "/lib")
      [("name", .str "pkg"), ("sideEffects", .arr [])] rfl).2.2.2 [] rfl
  · exact (claim9_main
      (.primary (.obj [("name", .str "pkg"), ("sideEffects", .boolean true)]) (.obj []) "/lib")
      [("name", .str "pkg"), ("sideEffects", .boolean true)] rfl).2.1 (.boolean true) rfl rfl
  · exact (claim9_main
      (.primary (.obj [("name", .str "pkg"), ("sideEffects", .boolean false)]) (.obj []) "/lib")
      [("name", .str "pkg"), ("sideEffects", .boolean false)] rfl).2.2.1 rfl

/-- Claim C10: a falsy configured value for `lib.flatModuleFile`,
`lib.umdId` or `lib.amdId` — in particular the empty string — is treated as
absent, and the accessor falls back to the derived default
(`flattenModuleId('-')`, `flattenModuleId('.')`, or `moduleId`
respectively). -/
theorem claim10_main (pl : Platform) (ep : NgEntryPoint) (v : JsValue)
    (hv : jsTruthy v = false) :
    (dollarGet ep "lib.flatModuleFile" = .ok v →
      flatModuleFile pl ep = (flattenModuleId pl "-" ep).map JsValue.str)
    ∧ (dollarGet ep "lib.umdId" = .ok v →
      umdId pl ep = (flattenModuleId pl "." ep).map JsValue.str)
    ∧ (dollarGet ep "lib.amdId" = .ok v → amdId pl ep = moduleId pl ep) := by
  refine ⟨?_, ?_, ?_⟩ <;> intro h
  · simp only [flatModuleFile, h, exBind_ok]
    cases hf : flattenModuleId pl "-" ep <;>
      simp [hf, hv, exBind_ok, exBind_err, Except.map]
  · simp only [umdId, h, exBind_ok]
    cases hf : flattenModuleId pl "." ep <;>
      simp [hf, hv, exBind_ok, exBind_err, Except.map]
  · simp [amdId, h, exBind_ok, hv]

/-- Claim C10, witness. -/
theorem claim10_witness :
    flatModuleFile Platform.posix emptyOverridesEp
      = (flattenModuleId Platform.posix "-" emptyOverridesEp).map JsValue.str
    ∧ umdId Platform.posix emptyOverridesEp
      = (flattenModuleId Platform.posix "." emptyOverridesEp).map JsValue.str
    ∧ amdId Platform.posix emptyOverridesEp = moduleId Platform.posix emptyOverridesEp
    ∧ flatModuleFile Platform.posix emptyOverridesEp = .ok (.str "scope-pkg")
    ∧ umdId Platform.posix emptyOverridesEp = .ok (.str "scope.pkg")
    ∧ amdId Platform.posix emptyOverridesEp = .ok (.str "@scope/pkg") := by
  obtain ⟨h1, h2, h3⟩ := claim10_main Platform.posix emptyOverridesEp (.str "") rfl
  exact ⟨h1 rfl, h2 rfl, h3 rfl, (h1 rfl).trans rfl, (h2 rfl).trans rfl, (h3 rfl).trans rfl⟩

end NgPackagr
